import Mathlib

/-!
Verification of the crop-selection utility (`LLM.py`) against its
natural-language specification.

The embedding models the pure core of `select_targets` and its helpers:
filename parsing (`parse_filename`), the sort key (`sort_key`), directory
enumeration (filter by extension + stable sort), the directional-prompt
keyword resolution (`resolveTargetAnswer`, lines 117-129 of the source),
the streamed-response accumulation (lines 245-254), the response
interpreter (lines 262-289) and the spatial band computation
(lines 190-202).  The image encoding plus HTTP call are abstracted as an
oracle `String → FetchResult`: `encodeError` models `encode_image`
raising (line 234, outside the try, so it escalates), `requestError` a
request exception caught at lines 240-243, and `response lines` the
sequence of lines produced by `resp.iter_lines()`, each line carrying the
JSON value it decodes to (or a decode/parse failure).  `select_targets`
itself is embedded as `Except Unit (List Int)`: `Except.error ()` models
an exception escaping the function (e.g. the uncaught `TypeError` a
scalar JSON line raises at the `"response" in data` test).  Machine text
is modelled over `List Char`
(ASCII fragment, which covers every token the decision logic inspects);
rationals stand for Python's real-valued arithmetic on the band
boundaries.
-/

namespace LLMSpec

/-- Whitespace characters stripped by Python `str.strip()` (ASCII fragment). -/
def isPySpace (c : Char) : Bool :=
  c == ' ' || c == '\t' || c == '\n' || c == '\r' || c == '\x0b' || c == '\x0c'

/-- Model of Python `str.strip()`. -/
def pyStrip (s : List Char) : List Char :=
  ((s.dropWhile isPySpace).reverse.dropWhile isPySpace).reverse

/-- Model of Python `str.upper()` (ASCII fragment). -/
def pyUpper (s : List Char) : List Char := s.map Char.toUpper

/-- Model of Python `str.lower()` (ASCII fragment). -/
def pyLower (s : List Char) : List Char := s.map Char.toLower

/-- Does the second list start with the first one? -/
def startsWithList : List Char → List Char → Bool
  | [], _ => true
  | _ :: _, [] => false
  | c :: cs, d :: ds => c == d && startsWithList cs ds

/-- Contiguous-substring test, Python `needle in hay`. -/
def containsSub (needle : List Char) : List Char → Bool
  | [] => startsWithList needle []
  | c :: rest => startsWithList needle (c :: rest) || containsSub needle rest

def pyStripStr (s : String) : String := ⟨pyStrip s.data⟩

def pyUpperStr (s : String) : String := ⟨pyUpper s.data⟩

def pyLowerStr (s : String) : String := ⟨pyLower s.data⟩

/-- Python `needle in hay` on strings. -/
def strContains (hay needle : String) : Bool := containsSub needle.data hay.data

/-- Python `s.endswith(t)`. -/
def strEndsWith (s t : String) : Bool :=
  startsWithList t.data.reverse s.data.reverse

/-- Word characters for the regex `\b` boundary (ASCII fragment of `\w`). -/
def isWordChar (c : Char) : Bool := c.isAlphanum || c == '_'

/-- A `\b` boundary holds next to `none` (string edge) or a non-word char.
This is exact for the alphanumeric tokens (`TOWARDS`, `AWAY`, `YES`) the
source searches for. -/
def boundaryOk : Option Char → Bool
  | none => true
  | some c => !(isWordChar c)

/-- Consume `w` from the front of `s`, returning the remainder on success. -/
def dropTok : List Char → List Char → Option (List Char)
  | [], s => some s
  | _ :: _, [] => none
  | c :: cs, d :: ds => if c == d then dropTok cs ds else none

/-- Does `w` occur at the head of `s` as a whole word, `prev` being the
character immediately before `s`? -/
def wholeWordHere (w : List Char) (prev : Option Char) (s : List Char) : Bool :=
  boundaryOk prev &&
    (match dropTok w s with
     | some rest => boundaryOk rest.head?
     | none => false)

def wholeWordAux (w : List Char) (prev : Option Char) : List Char → Bool
  | [] => wholeWordHere w prev []
  | c :: rest => wholeWordHere w prev (c :: rest) || wholeWordAux w (some c) rest

/-- Model of `re.search(r"\b" + re.escape(w) + r"\b", s)` for a token `w`
made of word characters. -/
def wholeWord (w s : List Char) : Bool := wholeWordAux w none s

def wholeWordStr (w s : String) : Bool := wholeWord w.data s.data

/-- Numeric value of a decimal digit run, Python `int(...)` on the group. -/
def digitsToNat (ds : List Char) : Nat :=
  ds.foldl (fun acc c => acc * 10 + (c.toNat - '0'.toNat)) 0

/-- Model of `re.match(r"i(\d+)_f(\d+)", fname)`: anchored at the start,
greedy digit runs, the rest of the name unconstrained.  Returns the two
captured groups as numbers when the regex matches. -/
def parseCore (l : List Char) : Option (Nat × Nat) :=
  match l with
  | 'i' :: rest =>
    let ds1 := rest.takeWhile Char.isDigit
    let rest1 := rest.dropWhile Char.isDigit
    if ds1.isEmpty then none
    else
      match rest1 with
      | '_' :: 'f' :: rest2 =>
        let ds2 := rest2.takeWhile Char.isDigit
        if ds2.isEmpty then none
        else some (digitsToNat ds1, digitsToNat ds2)
      | _ => none
  | _ => none

/-- Source `parse_filename` (LLM.py lines 58-62): returns
`(track_id, frame_id)` from the `i<digits>_f<digits>` pattern, or the
sentinel `(-1, -1)` when the regex does not match. -/
def parse_filename (fname : String) : Int × Int :=
  match parseCore fname.data with
  | some pf => ((pf.1 : Int), (pf.2 : Int))
  | none => (-1, -1)

/-- Whether the basename matches the `i<digits>_f<digits>` pattern. -/
def matchesPattern (fname : String) : Bool := (parseCore fname.data).isSome

/-- Model of `os.path.basename`: the part after the last slash. -/
def basename (s : String) : String :=
  ⟨s.data.foldl (fun acc c => if c == '/' then [] else acc ++ [c]) []⟩

/-- Source `sort_key` (LLM.py lines 65-70): `(frame_id, person_id)`. -/
def sort_key (x : String) : Int × Int :=
  let pf := parse_filename (basename x)
  (pf.2, pf.1)

/-- Source constant `DIRECTIONAL_PROMPTS` (LLM.py lines 12-15). -/
def DIRECTIONAL_PROMPTS : List String :=
  ["cars-in-the-counter-direction-of-ours", "cars-in-the-same-direction-of-ours"]

/-- Source constant `DIRECTION_MAP` (LLM.py lines 19-27), in dict
insertion order. -/
def DIRECTION_MAP : List (String × String) :=
  [("cars-in-the-counter-direction-of-ours", "TOWARDS"),
   ("cars-in-the-same-direction-of-ours", "AWAY"),
   ("counter-direction", "TOWARDS"),
   ("same-direction", "AWAY"),
   ("counter", "TOWARDS"),
   ("same", "AWAY")]

/-- Source line 112: `any(x in p for x in DIRECTIONAL_PROMPTS)` on the
lowercased prompt. -/
def isDirectionalQuery (p : String) : Bool :=
  DIRECTIONAL_PROMPTS.any (fun x => strContains p x)

/-- Source lines 117-129: pre-loop resolution of the expected answer for a
directional prompt — first key of `DIRECTION_MAP` occurring in `p` as a
substring, else an exact match of the stripped prompt against a canonical
prompt. -/
def resolveTargetAnswer (is_directional : Bool) (p : String) : Option String :=
  if is_directional then
    match DIRECTION_MAP.find? (fun kv => strContains p kv.1) with
    | some kv => some kv.2
    | none =>
      match DIRECTIONAL_PROMPTS.find? (fun canonical => pyStripStr p == canonical) with
      | some canonical => List.lookup canonical DIRECTION_MAP
      | none => none
  else none

/-- A JSON value as produced by `json.loads`; object keys are strings and
(post-`json.loads`) unique. -/
inductive JsonValue where
  | null : JsonValue
  | bool (b : Bool) : JsonValue
  | num (q : Int) : JsonValue
  | str (s : String) : JsonValue
  | arr (items : List JsonValue) : JsonValue
  | obj (fields : List (String × JsonValue)) : JsonValue

/-- One line delivered by `resp.iter_lines()` (LLM.py lines 247-254):
`empty` is the falsy line skipped by `if line:`, `undecodable` raises
`UnicodeDecodeError` at `.decode`, `invalidJson` raises `JSONDecodeError`
at `json.loads` (both caught by the `except` and skipped), and `json v`
is a line that decodes and parses to the value `v`. -/
inductive RespLine where
  | empty : RespLine
  | undecodable : RespLine
  | invalidJson : RespLine
  | json (v : JsonValue) : RespLine

/-- Is a Python `==` comparison of this element against the string
"response" true?  Only the JSON string "response" compares equal. -/
def isResponseStr : JsonValue → Bool
  | JsonValue.str s => s == "response"
  | _ => false

/-- Python semantics of lines 251-252 applied to a parsed value `data`:
the membership test `"response" in data` is key lookup on a dict,
substring search on a str, element equality on a list, and an uncaught
`TypeError` on `None`/bool/number; the subsequent `data["response"]`
raises `TypeError` on str/list; `result_text += ...` raises `TypeError`
on a non-string response value.  `ok none` is a skipped line, `ok (some
s)` appends `s`, `error ()` is an uncaught exception (the `except` clause
catches only `JSONDecodeError`/`UnicodeDecodeError`). -/
def processJson : JsonValue → Except Unit (Option String)
  | JsonValue.obj fields =>
    match List.lookup "response" fields with
    | none => Except.ok none
    | some (JsonValue.str s) => Except.ok (some s)
    | some _ => Except.error ()
  | JsonValue.str s =>
    if containsSub "response".data s.data then Except.error ()
    else Except.ok none
  | JsonValue.arr items =>
    if items.any isResponseStr then Except.error ()
    else Except.ok none
  | _ => Except.error ()

/-- How one iteration of the line loop (lines 247-254) treats a line. -/
def processLine : RespLine → Except Unit (Option String)
  | RespLine.empty => Except.ok none
  | RespLine.undecodable => Except.ok none
  | RespLine.invalidJson => Except.ok none
  | RespLine.json v => processJson v

/-- The line loop of lines 245-254 starting from `acc`: appends each
contributed response string in order, skips the skippable lines, and
propagates an uncaught `TypeError` (which aborts `select_targets`). -/
def accumulateFrom (acc : String) : List RespLine → Except Unit String
  | [] => Except.ok acc
  | l :: rest =>
    match processLine l with
    | Except.error e => Except.error e
    | Except.ok none => accumulateFrom acc rest
    | Except.ok (some s) => accumulateFrom (acc ++ s) rest

/-- Source lines 245-254: accumulate the response fields of one crop's
streamed reply. -/
def accumulate (lines : List RespLine) : Except Unit String :=
  accumulateFrom "" lines

/-- A streamed line of the shape the inference server normally sends. -/
def respLine (s : String) : RespLine :=
  RespLine.json (JsonValue.obj [("response", JsonValue.str s)])

/-- Outcome of the per-file image encoding plus HTTP request:
`encodeError` models `encode_image` raising at line 234 — OUTSIDE the
`try` of line 237, so it escapes `select_targets`; `requestError` models
`requests.post`/`raise_for_status` raising inside the `try`, caught at
lines 240-243 (the file is skipped); `response lines` is a successful
request. -/
inductive FetchResult where
  | encodeError : FetchResult
  | requestError : FetchResult
  | response (lines : List RespLine) : FetchResult

/-- Source lines 262-289: the response interpreter.  `target_llm_answer`
is the per-iteration variable (reset at line 163; in the directional
branch it is never reassigned, in the general branch it is `"YES"`).
Python's `elif` is the nested `else if`. -/
def decideSelected (is_directional : Bool) (target_llm_answer : Option String)
    (p : String) (result_text : String) : Bool :=
  let clean_response := pyUpperStr (pyStripStr result_text)
  if is_directional then
    match target_llm_answer with
    | some t => wholeWordStr t clean_response
    | none =>
      if strContains p "counter" && wholeWordStr "TOWARDS" clean_response then true
      else if (strContains p "same" || strContains p "same-direction")
          && wholeWordStr "AWAY" clean_response then true
      else false
  else
    wholeWordStr "YES" clean_response

/-- A directory entry as seen by `os.listdir` plus the `os.path.isfile`
test the source applies to it. -/
structure DirEntry where
  name : String
  isFile : Bool
deriving DecidableEq

/-- Filter of source lines 94-100: regular files ending in .jpg or .png. -/
def goodFile (e : DirEntry) : Bool :=
  e.isFile && (strEndsWith e.name ".jpg" || strEndsWith e.name ".png")

/-- Ascending lexicographic order on sort keys, as used by Python
`sorted(..., key=sort_key)` on the `(frame_id, person_id)` tuples. -/
def keyLE (a b : Int × Int) : Prop :=
  a.1 < b.1 ∨ (a.1 = b.1 ∧ a.2 ≤ b.2)

instance : DecidableRel keyLE := fun a b => by unfold keyLE; infer_instance

def fileLE (a b : String) : Prop := keyLE (sort_key a) (sort_key b)

instance : DecidableRel fileLE := fun a b => by unfold fileLE; infer_instance

instance : IsTotal String fileLE :=
  ⟨by intro a b; unfold fileLE keyLE; omega⟩

instance : IsTrans String fileLE :=
  ⟨by intro a b c hab hbc; unfold fileLE keyLE at *; omega⟩

/-- Source lines 94-102: enumeration — filter regular .jpg/.png files and
sort stably by `sort_key`.  Entry names coincide with the basenames of
the absolute paths the source builds, so paths are modelled by names. -/
def listFiles (entries : List DirEntry) : List String :=
  List.insertionSort fileLE ((entries.filter goodFile).map DirEntry.name)

/-- Body of the per-file loop (LLM.py lines 133-296, minus printing):
line 163 resets `target_llm_answer`; only the general branch (line 188)
reassigns it, so the directional branch reaches the interpreter with
`none`.  `encode_image` raising (line 234) escapes the function; a
request exception hits the `continue` of line 243 and the file
contributes nothing; an uncaught `TypeError` in the line loop escapes the
function; otherwise the file contributes its parsed track id exactly when
the decision is positive. -/
def fileContribution (p : String) (is_directional : Bool)
    (oracle : String → FetchResult) (f : String) : Except Unit (List Int) :=
  let fname := basename f
  let person_id := (parse_filename fname).1
  let target_llm_answer : Option String :=
    if is_directional then none else some "YES"
  match oracle f with
  | FetchResult.encodeError => Except.error ()
  | FetchResult.requestError => Except.ok []
  | FetchResult.response ls =>
    match accumulate ls with
    | Except.error e => Except.error e
    | Except.ok result_text =>
      if decideSelected is_directional target_llm_answer p result_text then
        Except.ok [person_id]
      else Except.ok []

/-- The per-file loop over the sorted file list: appends each file's
contribution to `selected_ids` in order, and aborts the whole batch as
soon as one file raises (the exception propagates out of the loop). -/
def runFiles (p : String) (is_directional : Bool)
    (oracle : String → FetchResult) :
    List String → List Int → Except Unit (List Int)
  | [], selected_ids => Except.ok selected_ids
  | f :: rest, selected_ids =>
    match fileContribution p is_directional oracle f with
    | Except.error e => Except.error e
    | Except.ok contribution =>
        runFiles p is_directional oracle rest (selected_ids ++ contribution)

/-- Source `select_targets` (LLM.py lines 73-298), over the pure state:
`dir = none` models a non-existent `crops_dir`; the oracle models the
image encoding plus HTTP call. `Except.ok` is a normal return,
`Except.error ()` an exception escaping the function.  Prompt text
construction (lines 162-226) is omitted: it only feeds the oracle, which
already depends on the file.  The dead pre-loop resolution (lines
117-129) is kept as `_target_preloop`. -/
def selectTargets (dir : Option (List DirEntry)) (prompt : String)
    (oracle : String → FetchResult) : Except Unit (List Int) :=
  match dir with
  | none => Except.ok []
  | some entries =>
    let files := listFiles entries
    if files.isEmpty then Except.ok []
    else
      let p := pyLowerStr prompt
      let is_directional := isDirectionalQuery p
      let _target_preloop := resolveTargetAnswer is_directional p
      runFiles p is_directional oracle files []

/-- Bounding box in pixel space (CropMetadata). -/
structure BBox where
  x1 : ℚ
  y1 : ℚ
  x2 : ℚ
  y2 : ℚ

/-- Source line 192 and 194: relative horizontal position of the box
center. -/
def relX (b : BBox) (img_w : ℚ) : ℚ := ((b.x1 + b.x2) / 2) / img_w

/-- Source lines 197-202: the three-band position description. -/
def positionDesc (r : ℚ) : String :=
  if r < 35 / 100 then "on the left side of the road"
  else if r > 65 / 100 then "on the right side of the road"
  else "in the center or directly ahead"

/-! ### Helper lemmas -/

theorem selectTargets_some_eq (entries : List DirEntry) (p : String)
    (oracle : String → FetchResult) :
    selectTargets (some entries) p oracle =
      runFiles (pyLowerStr p) (isDirectionalQuery (pyLowerStr p)) oracle
        (listFiles entries) [] := by
  simp only [selectTargets]
  cases hl : listFiles entries with
  | nil => simp [runFiles]
  | cons f rest => simp

theorem fileContribution_requestError {p : String} {d : Bool}
    {oracle : String → FetchResult} {f : String}
    (h : oracle f = FetchResult.requestError) :
    fileContribution p d oracle f = Except.ok [] := by
  unfold fileContribution; rw [h]

theorem fileContribution_ok_cases {p : String} {d : Bool}
    {oracle : String → FetchResult} {f : String} {ids : List Int}
    (h : fileContribution p d oracle f = Except.ok ids) :
    ids = [] ∨ ids = [(parse_filename (basename f)).1] := by
  unfold fileContribution at h
  cases ho : oracle f with
  | encodeError => rw [ho] at h; simp at h
  | requestError => rw [ho] at h; simp at h; exact Or.inl h
  | response ls =>
    rw [ho] at h
    simp at h
    cases ha : accumulate ls with
    | error e => rw [ha] at h; simp at h
    | ok text =>
      rw [ha] at h
      by_cases hd : decideSelected d (if d then none else some "YES") p text
      · simp [hd] at h; exact Or.inr h.symm
      · simp [hd] at h; exact Or.inl h

theorem runFiles_ok_mem (p : String) (d : Bool) (oracle : String → FetchResult) :
    ∀ (l : List String) (acc res : List Int),
      runFiles p d oracle l acc = Except.ok res → ∀ x ∈ res,
        x ∈ acc ∨ ∃ f ∈ l, ∃ ids,
          fileContribution p d oracle f = Except.ok ids ∧ x ∈ ids := by
  intro l
  induction l with
  | nil =>
    intro acc res h x hx
    unfold runFiles at h
    simp at h
    subst h
    exact Or.inl hx
  | cons f rest ih =>
    intro acc res h x hx
    unfold runFiles at h
    cases hc : fileContribution p d oracle f with
    | error e => rw [hc] at h; cases h
    | ok ids =>
      rw [hc] at h
      rcases ih (acc ++ ids) res h x hx with hacc | ⟨g, hg, ids2, hc2, hx2⟩
      · rcases List.mem_append.mp hacc with h1 | h2
        · exact Or.inl h1
        · exact Or.inr ⟨f, List.mem_cons_self f rest, ids, hc, h2⟩
      · exact Or.inr ⟨g, List.mem_cons_of_mem f hg, ids2, hc2, hx2⟩

theorem runFiles_middle_skip (p : String) (d : Bool)
    (oracle : String → FetchResult) {f : String}
    (hf : fileContribution p d oracle f = Except.ok []) :
    ∀ (pre post : List String) (acc : List Int),
      runFiles p d oracle (pre ++ f :: post) acc =
        runFiles p d oracle (pre ++ post) acc := by
  intro pre
  induction pre with
  | nil =>
    intro post acc
    simp only [List.nil_append]
    simp only [runFiles]
    rw [hf]
    simp
  | cons q pre ih =>
    intro post acc
    simp only [List.cons_append]
    simp only [runFiles]
    cases hq : fileContribution p d oracle q with
    | error e => rfl
    | ok c => exact ih post (acc ++ c)

theorem accumulateFrom_skip {l : RespLine} (hl : processLine l = Except.ok none) :
    ∀ (pre post : List RespLine) (acc : String),
      accumulateFrom acc (pre ++ l :: post) = accumulateFrom acc (pre ++ post) := by
  intro pre
  induction pre with
  | nil =>
    intro post acc
    simp only [List.nil_append]
    simp only [accumulateFrom]
    rw [hl]
  | cons q pre ih =>
    intro post acc
    simp only [List.cons_append]
    simp only [accumulateFrom]
    cases hq : processLine q with
    | error e => rfl
    | ok o => cases o with
      | none => exact ih post acc
      | some s => exact ih post (acc ++ s)

/-! ### Claim theorems -/

/-- Claim C3 counterexample: the streamed line null is well-formed JSON
without a response field, yet it is not skipped — in the source,
"response" in None raises TypeError, which the except clause (only
JSONDecodeError and UnicodeDecodeError) does not catch — so the batch
aborts with an exception instead of running to completion and returning
the list collected so far. -/
theorem c3_counterexample :
    selectTargets (some [⟨"i1_f1.jpg", true⟩]) "cars on the left side"
      (fun _ => FetchResult.response [RespLine.json JsonValue.null]) =
      Except.error () := rfl

/-- Claim C3 amended: lines that fail byte decoding or JSON parsing, and
empty lines, are skipped without raising and accumulation continues with
the remaining lines, as are parsed object lines lacking a response key;
but not every per-file condition is contained: a scalar JSON line such as
null raises an uncaught TypeError that aborts the batch, and so does an
encode_image failure, which sits outside the try; when no such condition
occurs the batch runs to completion and returns the per-file
contributions in file order. -/
theorem c3_amended_skip_vs_abort :
    (∀ (pre post : List RespLine) (l : RespLine),
        processLine l = Except.ok none →
        accumulate (pre ++ l :: post) = accumulate (pre ++ post)) ∧
    (∀ fields, List.lookup "response" fields = none →
        processLine (RespLine.json (JsonValue.obj fields)) = Except.ok none) ∧
    processLine RespLine.invalidJson = Except.ok none ∧
    processLine RespLine.undecodable = Except.ok none ∧
    processLine RespLine.empty = Except.ok none ∧
    processLine (RespLine.json JsonValue.null) = Except.error () ∧
    (∀ (q : String) (d : Bool) (oracle : String → FetchResult) (f : String),
        oracle f = FetchResult.encodeError →
        fileContribution q d oracle f = Except.error ()) ∧
    (∀ (entries : List DirEntry) (p : String) (oracle : String → FetchResult),
        selectTargets (some entries) p oracle =
          runFiles (pyLowerStr p) (isDirectionalQuery (pyLowerStr p)) oracle
            (listFiles entries) []) := by
  refine ⟨?_, ?_, rfl, rfl, rfl, rfl, ?_, selectTargets_some_eq⟩
  · intro pre post l hl
    exact accumulateFrom_skip hl pre post ""
  · intro fields h
    simp [processLine, processJson, h]
  · intro q d oracle f h
    unfold fileContribution
    rw [h]

/-- Witness for the amended C3: a parse-failing line between two good
lines drops out of the accumulation, and a parsed object without a
response key is skipped. -/
theorem c3_amended_skip_vs_abort_witness :
    accumulate [respLine "A", RespLine.invalidJson, respLine "B"] =
      accumulate [respLine "A", respLine "B"] ∧
    processLine (RespLine.json (JsonValue.obj [("done", JsonValue.bool true)])) =
      Except.ok none :=
  ⟨c3_amended_skip_vs_abort.1 [respLine "A"] [respLine "B"] RespLine.invalidJson rfl,
   c3_amended_skip_vs_abort.2.1 [("done", JsonValue.bool true)] rfl⟩

/-- Claim C4: enumeration keeps exactly the .jpg/.png regular files and
sorts them ascending by the (frameId, trackId) key parsed from each
basename; in particular i2_f1.jpg, i1_f1.jpg, i1_f2.jpg are processed in
the order i1_f1, i2_f1, i1_f2. -/
theorem c4_enumeration_sorted :
    (∀ entries : List DirEntry,
        List.Sorted fileLE (listFiles entries) ∧
        (listFiles entries).Perm ((entries.filter goodFile).map DirEntry.name)) ∧
    listFiles [⟨"i2_f1.jpg", true⟩, ⟨"i1_f1.jpg", true⟩, ⟨"i1_f2.jpg", true⟩] =
      ["i1_f1.jpg", "i2_f1.jpg", "i1_f2.jpg"] := by
  refine ⟨fun entries =>
    ⟨List.sorted_insertionSort fileLE _, List.perm_insertionSort fileLE _⟩, ?_⟩
  decide

/-- Claim C8: a missing crops directory, or one without any .jpg/.png
regular file, yields the empty list and no error. -/
theorem c8_empty_input (p : String) (oracle : String → FetchResult) :
    selectTargets none p oracle = Except.ok [] ∧
    ∀ entries : List DirEntry, entries.filter goodFile = [] →
      selectTargets (some entries) p oracle = Except.ok [] := by
  refine ⟨rfl, fun entries h => ?_⟩
  rw [selectTargets_some_eq]
  unfold listFiles
  rw [h]
  simp [runFiles]

/-- Witness for C8: a missing directory and a directory holding only a
text file and a non-regular .jpg entry. -/
theorem c8_empty_input_witness :
    selectTargets none "cars on the left" (fun _ => FetchResult.requestError) =
      Except.ok [] ∧
    selectTargets (some [⟨"notes.txt", true⟩, ⟨"i1_f1.jpg", false⟩])
      "cars on the left" (fun _ => FetchResult.requestError) = Except.ok [] :=
  ⟨(c8_empty_input "cars on the left" (fun _ => FetchResult.requestError)).1,
   (c8_empty_input "cars on the left" (fun _ => FetchResult.requestError)).2
     [⟨"notes.txt", true⟩, ⟨"i1_f1.jpg", false⟩] (by decide)⟩

/-- Claim C7: a request that raises is caught and not re-raised: the file
contributes nothing to the result and processing continues with every
remaining file in order. -/
theorem c7_network_failure_skipped (entries : List DirEntry) (p f : String)
    (oracle : String → FetchResult) (pre post : List String)
    (hsplit : listFiles entries = pre ++ f :: post)
    (hfail : oracle f = FetchResult.requestError) :
    selectTargets (some entries) p oracle =
      runFiles (pyLowerStr p) (isDirectionalQuery (pyLowerStr p)) oracle
        (pre ++ post) [] := by
  rw [selectTargets_some_eq, hsplit]
  exact runFiles_middle_skip _ _ _ (fileContribution_requestError hfail) pre post []

/-- Oracle for the C7 witness: the request for the first file raises a
caught network exception, the one for the second file answers yes. -/
def c7Oracle (f : String) : FetchResult :=
  if f == "i1_f1.jpg" then FetchResult.requestError
  else FetchResult.response [respLine "yes"]

/-- Witness for C7: with the first file's request failing, the batch
behaves as if that file were absent and still returns the second file's
track id. -/
theorem c7_network_failure_skipped_witness :
    (selectTargets (some [⟨"i1_f1.jpg", true⟩, ⟨"i2_f1.jpg", true⟩])
        "cars on the left" c7Oracle =
      runFiles (pyLowerStr "cars on the left")
        (isDirectionalQuery (pyLowerStr "cars on the left")) c7Oracle
        ([] ++ ["i2_f1.jpg"]) []) ∧
    runFiles (pyLowerStr "cars on the left")
      (isDirectionalQuery (pyLowerStr "cars on the left")) c7Oracle
      ([] ++ ["i2_f1.jpg"]) [] = Except.ok [2] :=
  ⟨c7_network_failure_skipped [⟨"i1_f1.jpg", true⟩, ⟨"i2_f1.jpg", true⟩]
      "cars on the left" "i1_f1.jpg" c7Oracle [] ["i2_f1.jpg"]
      (by decide) rfl,
   rfl⟩

/-- Claim C9: a processed file contributes at most one entry — exactly its
parsed track id on a positive decision, nothing on a negative one — and
no dedup is done, so two files sharing a track id across frames yield the
id twice. -/
theorem c9_contribution (p : String) (d : Bool)
    (oracle : String → FetchResult) (f : String) :
    (∀ ids, fileContribution p d oracle f = Except.ok ids → ids.length ≤ 1) ∧
    (∀ ls text, oracle f = FetchResult.response ls →
        accumulate ls = Except.ok text →
        (decideSelected d (if d then none else some "YES") p text = true →
            fileContribution p d oracle f =
              Except.ok [(parse_filename (basename f)).1]) ∧
        (decideSelected d (if d then none else some "YES") p text = false →
            fileContribution p d oracle f = Except.ok [])) ∧
    selectTargets (some [⟨"i5_f1.jpg", true⟩, ⟨"i5_f2.jpg", true⟩])
      "cars on the left side"
      (fun _ => FetchResult.response [respLine "yes"]) = Except.ok [5, 5] := by
  refine ⟨?_, ?_, rfl⟩
  · intro ids h
    rcases fileContribution_ok_cases h with h1 | h1 <;> simp [h1]
  · intro ls text hls htext
    constructor <;> intro hd <;>
      simp [fileContribution, hls, htext, hd]

/-- Witness for C9: one file whose request succeeds with a yes reply
contributes exactly its track id. -/
theorem c9_contribution_witness :
    fileContribution "cars on the left side" false
      (fun _ => FetchResult.response [respLine "yes"]) "i5_f1.jpg" =
      Except.ok [5] := by
  have h := ((c9_contribution "cars on the left side" false
      (fun _ => FetchResult.response [respLine "yes"]) "i5_f1.jpg").2.1
      [respLine "yes"] "yes" rfl rfl).1 (by decide)
  rw [h]
  rfl

/-- Claim C10: every element of the result is the track id parsed from
the basename of some enumerated file, and the sentinel -1 appears when a
pattern-less basename gets a positive decision. -/
theorem c10_result_ids :
    (∀ (x : Int) (res : List Int) (entries : List DirEntry) (p : String)
        (oracle : String → FetchResult),
        selectTargets (some entries) p oracle = Except.ok res → x ∈ res →
        ∃ f ∈ listFiles entries, x = (parse_filename (basename f)).1) ∧
    selectTargets (some [⟨"photo.jpg", true⟩]) "cars on the left side"
      (fun _ => FetchResult.response [respLine "yes"]) = Except.ok [-1] := by
  constructor
  · intro x res entries p oracle hres hx
    rw [selectTargets_some_eq] at hres
    rcases runFiles_ok_mem (pyLowerStr p) (isDirectionalQuery (pyLowerStr p))
        oracle (listFiles entries) [] res hres x hx with
      h0 | ⟨f, hf, ids, hids, hxids⟩
    · simp at h0
    · refine ⟨f, hf, ?_⟩
      rcases fileContribution_ok_cases hids with h1 | h1
      · subst h1; simp at hxids
      · subst h1; simpa using hxids
  · rfl

/-- Witness for C10: the sentinel -1 returned for photo.jpg is the parsed
track id of an enumerated file. -/
theorem c10_result_ids_witness :
    ∃ f ∈ listFiles [⟨"photo.jpg", true⟩],
      (-1 : Int) = (parse_filename (basename f)).1 :=
  c10_result_ids.1 (-1) [-1] [⟨"photo.jpg", true⟩] "cars on the left side"
    (fun _ => FetchResult.response [respLine "yes"]) rfl (by decide)

theorem positionDesc_left {r : ℚ} (h : r < 35 / 100) :
    positionDesc r = "on the left side of the road" := by
  unfold positionDesc; rw [if_pos h]

theorem positionDesc_right {r : ℚ} (h1 : ¬ r < 35 / 100) (h2 : r > 65 / 100) :
    positionDesc r = "on the right side of the road" := by
  unfold positionDesc; rw [if_neg h1, if_pos h2]

theorem positionDesc_center {r : ℚ} (h1 : ¬ r < 35 / 100) (h2 : ¬ r > 65 / 100) :
    positionDesc r = "in the center or directly ahead" := by
  unfold positionDesc; rw [if_neg h1, if_neg h2]

/-- Claim C5: rel_x = centerX / width falls into exactly one of three
bands under strict comparisons — left below 0.35, right above 0.65,
center otherwise — with the boundaries 0.35 and 0.65 classifying as
center, and 30, 50, 80 percent classifying as left, center, right. -/
theorem c5_bands :
    (∀ (b : BBox) (w : ℚ),
        (positionDesc (relX b w) = "on the left side of the road" ↔
          relX b w < 35 / 100) ∧
        (positionDesc (relX b w) = "on the right side of the road" ↔
          relX b w > 65 / 100) ∧
        (positionDesc (relX b w) = "in the center or directly ahead" ↔
          (35 / 100 ≤ relX b w ∧ relX b w ≤ 65 / 100))) ∧
    positionDesc (relX ⟨0, 0, 60, 0⟩ 100) = "on the left side of the road" ∧
    positionDesc (relX ⟨0, 0, 100, 0⟩ 100) = "in the center or directly ahead" ∧
    positionDesc (relX ⟨0, 0, 160, 0⟩ 100) = "on the right side of the road" ∧
    positionDesc (35 / 100) = "in the center or directly ahead" ∧
    positionDesc (65 / 100) = "in the center or directly ahead" := by
  refine ⟨?_,
    positionDesc_left (by norm_num [relX]),
    positionDesc_center (by norm_num [relX]) (by norm_num [relX]),
    positionDesc_right (by norm_num [relX]) (by norm_num [relX]),
    positionDesc_center (by norm_num) (by norm_num),
    positionDesc_center (by norm_num) (by norm_num)⟩
  intro b w
  set r := relX b w with hr
  unfold positionDesc
  by_cases h1 : r < 35 / 100
  · rw [if_pos h1]
    refine ⟨iff_of_true rfl h1, iff_of_false (by decide) (by linarith), ?_⟩
    exact iff_of_false (by decide) (fun hc => absurd h1 (not_lt.mpr hc.1))
  · rw [if_neg h1]
    by_cases h2 : r > 65 / 100
    · rw [if_pos h2]
      refine ⟨iff_of_false (by decide) h1, iff_of_true rfl h2, ?_⟩
      exact iff_of_false (by decide) (fun hc => absurd h2 (not_lt.mpr hc.2))
    · rw [if_neg h2]
      exact ⟨iff_of_false (by decide) h1, iff_of_false (by decide) h2,
        iff_of_true rfl ⟨not_lt.mp h1, not_lt.mp h2⟩⟩

/-- Claim C6: a basename that does not match the i-digits-f-digits
pattern parses to the sentinel (-1, -1) (no error: parse_filename is
total), and such a file sorts strictly before every pattern-matching
file. -/
theorem c6_sentinel (f g : String)
    (hf : matchesPattern (basename f) = false)
    (hg : matchesPattern (basename g) = true) :
    parse_filename (basename f) = (-1, -1) ∧
    fileLE f g ∧ ¬ fileLE g f := by
  have hfn : parseCore (basename f).data = none := by
    rcases h : parseCore (basename f).data with _ | pf
    · rfl
    · rw [matchesPattern, h] at hf; simp at hf
  obtain ⟨pf, hgn⟩ : ∃ pf, parseCore (basename g).data = some pf := by
    rcases h : parseCore (basename g).data with _ | pf
    · rw [matchesPattern, h] at hg; simp at hg
    · exact ⟨pf, rfl⟩
  have hpf : parse_filename (basename f) = (-1, -1) := by
    simp [parse_filename, hfn]
  have hpg : parse_filename (basename g) = ((pf.1 : Int), (pf.2 : Int)) := by
    simp [parse_filename, hgn]
  refine ⟨hpf, ?_, ?_⟩
  · simp only [fileLE, sort_key, hpf, hpg, keyLE]
    omega
  · simp only [fileLE, sort_key, hpf, hpg, keyLE]
    omega

/-- Witness for C6: photo.jpg parses to the sentinel and sorts strictly
before the pattern-matching i1_f2.jpg. -/
theorem c6_sentinel_witness :
    parse_filename (basename "photo.jpg") = (-1, -1) ∧
    fileLE "photo.jpg" "i1_f2.jpg" ∧ ¬ fileLE "i1_f2.jpg" "photo.jpg" :=
  c6_sentinel "photo.jpg" "i1_f2.jpg" (by decide) (by decide)

/-- Reply used for claim C1: a structured fragment carrying match true. -/
def c1Reply : String := "\x7b\"match\": true, \"reason\": \"left side car\"\x7d"

/-- Claim C1 counterexample: a general query whose whole reply is the
structured fragment with match true selects nothing — the interpreter
never parses JSON out of the reply, so the claimed precedence rule does
not exist and the track id 7 is absent. -/
theorem c1_counterexample :
    selectTargets (some [⟨"i7_f1.jpg", true⟩]) "cars on the left side"
      (fun _ => FetchResult.response [respLine c1Reply]) = Except.ok [] := rfl

/-- Claim C1 amended: for a general query the decision is exactly the
whole-word YES search on the trimmed uppercased reply — no structured
fragment is consulted — so the reply with match true is not selected. -/
theorem c1_amended_general_is_yes_search :
    (∀ (t : Option String) (p reply : String),
        decideSelected false t p reply =
          wholeWordStr "YES" (pyUpperStr (pyStripStr reply))) ∧
    decideSelected false (some "YES") "cars on the left side" c1Reply = false :=
  ⟨fun _ _ _ => rfl, by decide⟩

/-- Prompt exhibiting the C2 divergence: it contains the canonical
same-direction phrase (so the mapping of lines 117-129 resolves AWAY) and
also the word counter. -/
def c2Prompt : String := "counter cars-in-the-same-direction-of-ours"

/-- Claim C2 evaluated at the failing input: the prompt is directional,
the keyword-to-token mapping resolves AWAY, and the reply TOWARDS does
not contain AWAY as a whole word — yet select_targets selects track 3,
because line 163 resets target_llm_answer each iteration, the directional
branch never reassigns it, and the fallback's counter-check fires on the
reply TOWARDS. -/
theorem c2_mapping_dead_divergence :
    isDirectionalQuery (pyLowerStr c2Prompt) = true ∧
    resolveTargetAnswer true (pyLowerStr c2Prompt) = some "AWAY" ∧
    wholeWordStr "AWAY" (pyUpperStr (pyStripStr "TOWARDS")) = false ∧
    selectTargets (some [⟨"i3_f1.jpg", true⟩]) c2Prompt
      (fun _ => FetchResult.response [respLine "TOWARDS"]) = Except.ok [3] := by
  refine ⟨by decide, by decide, by decide, rfl⟩

end LLMSpec
